import Mathlib

/-!
Verification of the hybrid caption-detection engine
(`try04_20251204/qwen_caption_batch.rawtext.py` and
`try04_20251204/extract_caption_rawtext.py`).

Strings are modelled as `List Char`.  Python string primitives
(`str.split`, `str.splitlines`, `str.strip`, `str.replace`, `str.find`)
are embedded as executable functions below, restricted to the Unicode
whitespace set that CPython uses.  The two regular expressions of the
program (`FIG_PATTERN`, `TABLE_KEYWORD_PAT`, the id-extraction patterns
and the `LABEL=...; END_INDEX=...; REASON=...` grammar) are embedded as
specialised scanning matchers that reproduce `re.search` semantics
(leftmost match, greedy quantifiers with backtracking) for those exact
patterns.  The external classification oracle (`ollama.chat`) is
abstracted as a function from the three window sentences to
`Except Str Str`: `.error` models a raised exception, `.ok` models the
returned message content.
-/

abbrev Str := List Char

/-- CPython whitespace set (`str.isspace`, `str.split()` and `re` `\s`). -/
def pyIsSpace (c : Char) : Bool :=
  decide (c.toNat = 32) || decide (c.toNat = 9) || decide (c.toNat = 10) ||
  decide (c.toNat = 11) || decide (c.toNat = 12) || decide (c.toNat = 13) ||
  decide (c.toNat = 28) || decide (c.toNat = 29) || decide (c.toNat = 30) ||
  decide (c.toNat = 31) || decide (c.toNat = 133) || decide (c.toNat = 160) ||
  decide (c.toNat = 0x1680) ||
  decide (0x2000 ≤ c.toNat ∧ c.toNat ≤ 0x200a) ||
  decide (c.toNat = 0x2028) || decide (c.toNat = 0x2029) ||
  decide (c.toNat = 0x202f) || decide (c.toNat = 0x205f) ||
  decide (c.toNat = 0x3000)

/-- CPython line-break set used by `str.splitlines`. -/
def isLineBreak (c : Char) : Bool :=
  decide (c.toNat = 10) || decide (c.toNat = 13) ||
  decide (c.toNat = 11) || decide (c.toNat = 12) ||
  decide (c.toNat = 28) || decide (c.toNat = 29) || decide (c.toNat = 30) ||
  decide (c.toNat = 133) || decide (c.toNat = 0x2028) || decide (c.toNat = 0x2029)

/-- ASCII decimal digit (`re` `\d` on the inputs of interest). -/
def isDigitB (c : Char) : Bool :=
  decide (48 ≤ c.toNat ∧ c.toNat ≤ 57)

/-- ASCII letter (`[a-zA-Z]`). -/
def isAsciiLetterB (c : Char) : Bool :=
  decide ((65 ≤ c.toNat ∧ c.toNat ≤ 90) ∨ (97 ≤ c.toNat ∧ c.toNat ≤ 122))

/-- `re` word character `\w` (ASCII fragment), used for `\b` boundaries. -/
def isWordCharB (c : Char) : Bool :=
  decide ((65 ≤ c.toNat ∧ c.toNat ≤ 90) ∨ (97 ≤ c.toNat ∧ c.toNat ≤ 122) ∨
          (48 ≤ c.toNat ∧ c.toNat ≤ 57) ∨ c.toNat = 95)

/-- Character class `[A-Z_]` of the response grammar. -/
def isLabelChar (c : Char) : Bool :=
  decide ((65 ≤ c.toNat ∧ c.toNat ≤ 90) ∨ c.toNat = 95)

/-- `str.upper` on one character (ASCII fragment). -/
def pyUpperChar (c : Char) : Char :=
  if 97 ≤ c.toNat ∧ c.toNat ≤ 122 then Char.ofNat (c.toNat - 32) else c

/-- `str.strip()`. -/
def pyStrip (s : Str) : Str :=
  ((s.dropWhile pyIsSpace).reverse.dropWhile pyIsSpace).reverse

/-- `str.split()` (split on whitespace runs, dropping empty pieces). -/
def pySplitAux (cur : Str) : Str → List Str
  | [] => if cur.isEmpty then [] else [cur.reverse]
  | c :: rest =>
    if pyIsSpace c then
      if cur.isEmpty then pySplitAux [] rest
      else cur.reverse :: pySplitAux [] rest
    else pySplitAux (c :: cur) rest

def pySplit (s : Str) : List Str := pySplitAux [] s

/-- `str.splitlines()`. -/
def pySplitlinesAux (cur : Str) : Str → List Str
  | [] => [cur.reverse]
  | '\r' :: '\n' :: r =>
    cur.reverse :: (match r with | [] => [] | _ :: _ => pySplitlinesAux [] r)
  | c :: r =>
    if isLineBreak c then
      cur.reverse :: (match r with | [] => [] | _ :: _ => pySplitlinesAux [] r)
    else pySplitlinesAux (c :: cur) r

def pySplitlines (s : Str) : List Str :=
  match s with
  | [] => []
  | _ :: _ => pySplitlinesAux [] s

/-- `" ".join(pieces)`. -/
def joinSpace : List Str → Str
  | [] => []
  | [x] => x
  | x :: xs => x ++ ' ' :: joinSpace xs

/-- `str.replace(old, new)`: leftmost, non-overlapping.  All call sites of
the program use non-empty `old`.  The fuel argument (instantiated with the
length of the input, which bounds the number of steps since every step
consumes at least one character) keeps the recursion structural so that
the function reduces inside the kernel. -/
def pyReplaceFuel (old new : Str) : Nat → Str → Str
  | 0, s => s
  | _ + 1, [] => []
  | fuel + 1, c :: rest =>
    if !old.isEmpty && old.isPrefixOf (c :: rest) then
      new ++ pyReplaceFuel old new fuel (List.drop (old.length - 1) rest)
    else
      c :: pyReplaceFuel old new fuel rest

def pyReplace (old new s : Str) : Str := pyReplaceFuel old new s.length s

/-- The suffix of `s` from the first occurrence of `pat`, if any. -/
def dropToSubAux (pat : Str) : Str → Option Str
  | [] => none
  | c :: t => if pat.isPrefixOf (c :: t) then some (c :: t) else dropToSubAux pat t

/-- `idx = text.find("LABEL="); text = text[idx:] if idx >= 0 else text`. -/
def afterFirstLabel (s : Str) : Str :=
  (dropToSubAux ("LABEL=".data) s).getD s

/-- `" ".join(text.splitlines())` then `" ".join(text_one.split())`:
collapse all whitespace to single spaces. -/
def collapseWs (s : Str) : Str :=
  joinSpace (pySplit (joinSpace (pySplitlines s)))

/-! ### The response grammar matcher

`re.search(r"LABEL\s*=\s*([A-Z_]+)\s*;\s*END_INDEX\s*=\s*(-?\d+)\s*;\s*REASON\s*=\s*(.+)", text_one)`.

For this pattern every quantifier is deterministic on any input except the
final `\s*(.+)` pair, whose backtracking is reproduced in `matchReason`. -/

/-- Match a literal, returning what follows. -/
def dropLit (lit s : Str) : Option Str :=
  if lit.isPrefixOf s then some (s.drop lit.length) else none

/-- `\s*(.+)` at the end of the pattern: greedy whitespace, then at least
one character; `.` matches anything but a newline; the regex engine
backtracks into the whitespace run if nothing is left. -/
def matchReason (r : Str) : Option Str :=
  let t := r.dropWhile pyIsSpace
  if t.isEmpty then
    match (r.takeWhile pyIsSpace).reverse.dropWhile (fun c => c == '\n') with
    | [] => none
    | c :: _ => some [c]
  else some (t.takeWhile (fun c => !(c == '\n')))

/-- `-?\d+` : optional sign, then a maximal non-empty digit run. -/
def matchInt (s : Str) : Option (Str × Str) :=
  match s with
  | '-' :: r =>
    let ds := r.takeWhile isDigitB
    if ds.isEmpty then none else some ('-' :: ds, r.drop ds.length)
  | r =>
    let ds := r.takeWhile isDigitB
    if ds.isEmpty then none else some (ds, r.drop ds.length)

/-- Try the grammar at the current position; on success return the three
captured groups (label, integer text, reason text). -/
def matchLabelLine (s : Str) : Option (Str × Str × Str) := do
  let s1 ← dropLit ("LABEL".data) s
  let s2 ← dropLit ("=".data) (s1.dropWhile pyIsSpace)
  let g1 := (s2.dropWhile pyIsSpace).takeWhile isLabelChar
  if g1.isEmpty then none
  else do
    let s3 := (s2.dropWhile pyIsSpace).drop g1.length
    let s4 ← dropLit (";".data) (s3.dropWhile pyIsSpace)
    let s5 ← dropLit ("END_INDEX".data) (s4.dropWhile pyIsSpace)
    let s6 ← dropLit ("=".data) (s5.dropWhile pyIsSpace)
    let (g2, s8) ← matchInt (s6.dropWhile pyIsSpace)
    let s9 ← dropLit (";".data) (s8.dropWhile pyIsSpace)
    let s10 ← dropLit ("REASON".data) (s9.dropWhile pyIsSpace)
    let s11 ← dropLit ("=".data) (s10.dropWhile pyIsSpace)
    let g3 ← matchReason s11
    some (g1, g2, g3)

/-- `re.search`: try the pattern at every position, leftmost first. -/
def searchLabel : Str → Option (Str × Str × Str)
  | [] => none
  | c :: rest =>
    match matchLabelLine (c :: rest) with
    | some g => some g
    | none => searchLabel rest

/-- `int(...)` on a string matched by `-?\d+`. -/
def natOfDigits (ds : Str) : Nat :=
  ds.foldl (fun a c => a * 10 + (c.toNat - 48)) 0

def strToInt : Str → Int
  | '-' :: ds => - (natOfDigits ds : Nat)
  | ds => (natOfDigits ds : Nat)

/-- Result dictionary of `parse_table_response` / `call_qwen_table`. -/
structure TableResult where
  label : Str
  end_index : Int
  reason : Str
deriving DecidableEq

/-- `parse_table_response` (qwen_caption_batch.rawtext.py, lines 230-276). -/
def parse_table_response (text : Str) : TableResult :=
  let t := afterFirstLabel text
  let text_one := collapseWs t
  match searchLabel text_one with
  | none =>
    { label := "PARSE_ERROR".data, end_index := -1,
      reason := ("raw: ".data) ++ text_one.take 200 }
  | some (g1, g2, g3) =>
    let label := g1.map pyUpperChar
    let end_idx := strToInt g2
    let reason := pyStrip g3
    let label :=
      if label = "TABLE_CAPTION".data ∨ label = "NOT_CAPTION".data then label
      else "PARSE_ERROR".data
    let end_idx :=
      if end_idx = -1 ∨ end_idx = 0 ∨ end_idx = 1 ∨ end_idx = 2 then end_idx
      else -1
    { label := label, end_index := end_idx, reason := reason }

/-- The external classification oracle: `.error e` models a raised
exception with message `e`, `.ok resp` models the stripped-to-be message
content returned by the model call. -/
def Oracle := Str → Str → Str → Except Str Str

/-- `call_qwen_table` (lines 279-301): any exception from the oracle call
is caught and turned into a label=ERROR result. -/
def call_qwen_table (oracle : Oracle) (s0 s1 s2 : Str) : TableResult :=
  match oracle s0 s1 s2 with
  | Except.error e =>
    { label := "ERROR".data, end_index := -1,
      reason := ("Qwen call error: ".data) ++ e }
  | Except.ok resp => parse_table_response (pyStrip resp)

/-! ### `FIG_PATTERN = re.compile(r"\bFig\.\s*\d+", re.IGNORECASE)` -/

/-- Word-boundary test for the character preceding the current position:
at the start of the string, or after a non-word character. -/
def prevOk : Option Char → Bool
  | none => true
  | some c => !isWordCharB c

/-- Does `\bFig\.\s*\d+` (ignoring case) match at the current position?
(The `\b` context is checked by the caller via `prevOk`.) -/
def figHere : Str → Bool
  | c1 :: c2 :: c3 :: c4 :: rest =>
    (c1 == 'f' || c1 == 'F') && (c2 == 'i' || c2 == 'I') &&
    (c3 == 'g' || c3 == 'G') && (c4 == '.') &&
    (match rest.dropWhile pyIsSpace with
     | d :: _ => isDigitB d
     | [] => false)
  | _ => false

/-- Leftmost `re.search` for `FIG_PATTERN` returning the suffix of the
string from the match start (`s[m.start():]`). -/
def figFindSuffix : Option Char → Str → Option Str
  | _, [] => none
  | prev, c :: rest =>
    if prevOk prev && figHere (c :: rest) then some (c :: rest)
    else figFindSuffix (some c) rest

/-- `FIG_PATTERN.search(s)` viewed as a Boolean. -/
def figSearch (s : Str) : Bool := (figFindSuffix none s).isSome

/-- Tail of the common id-extraction patterns: `\s*([0-9]+[a-zA-Z]?)`
after the keyword, returning the captured group. -/
def numGroupAfter (rest : Str) : Option Str :=
  let rest2 := rest.dropWhile pyIsSpace
  let ds := rest2.takeWhile isDigitB
  if ds.isEmpty then none
  else
    match rest2.drop ds.length with
    | c :: _ => if isAsciiLetterB c then some (ds ++ [c]) else some ds
    | [] => some ds

/-- `re.search(r"Fig\.\s*([0-9]+[a-zA-Z]?)", tail)` — case sensitive,
no word boundary. -/
def figNumHere : Str → Option Str
  | 'F' :: 'i' :: 'g' :: '.' :: rest => numGroupAfter rest
  | _ => none

def figNumFind : Str → Option Str
  | [] => none
  | c :: rest =>
    match figNumHere (c :: rest) with
    | some g => some g
    | none => figNumFind rest

/-- Figure-number extraction of `detect_figure_captions` (lines 156-163):
take the suffix from the `FIG_PATTERN` match start, then search it with
the case-sensitive pattern `Fig\.\s*([0-9]+[a-zA-Z]?)`. -/
def extract_fig_no (s : Str) : Option Str :=
  match figFindSuffix none s with
  | none => none
  | some tail => figNumFind tail

/-! ### `TABLE_KEYWORD_PAT = re.compile(r"\bTable[s]?\b", re.IGNORECASE)` -/

def tableHere (prev : Option Char) : Str → Bool
  | c1 :: c2 :: c3 :: c4 :: c5 :: rest =>
    prevOk prev &&
    (c1 == 't' || c1 == 'T') && (c2 == 'a' || c2 == 'A') &&
    (c3 == 'b' || c3 == 'B') && (c4 == 'l' || c4 == 'L') &&
    (c5 == 'e' || c5 == 'E') &&
    (match rest with
     | [] => true
     | c6 :: rest2 =>
       if c6 == 's' || c6 == 'S' then
         (match rest2 with
          | [] => true
          | c7 :: _ => !isWordCharB c7)
       else !isWordCharB c6)
  | _ => false

def tableFindAux : Option Char → Str → Bool
  | _, [] => false
  | prev, c :: rest => tableHere prev (c :: rest) || tableFindAux (some c) rest

/-- `TABLE_KEYWORD_PAT.search(s)` viewed as a Boolean. -/
def tableSearch (s : Str) : Bool := tableFindAux none s

/-- `re.search(r"\bTable\s*([0-9]+[a-zA-Z]?)", text_window, re.IGNORECASE)`
(table-id extraction, lines 350-352). -/
def tableIdHere (prev : Option Char) : Str → Option Str
  | c1 :: c2 :: c3 :: c4 :: c5 :: rest =>
    if prevOk prev &&
       (c1 == 't' || c1 == 'T') && (c2 == 'a' || c2 == 'A') &&
       (c3 == 'b' || c3 == 'B') && (c4 == 'l' || c4 == 'L') &&
       (c5 == 'e' || c5 == 'E') then
      numGroupAfter rest
    else none
  | _ => none

def tableIdFind : Option Char → Str → Option Str
  | _, [] => none
  | prev, c :: rest =>
    match tableIdHere prev (c :: rest) with
    | some g => some g
    | none => tableIdFind (some c) rest

def table_id_search (s : Str) : Option Str := tableIdFind none s

/-! ### Sentence splitting (`_SENT_SPLIT_RE = re.compile(r'(?<=[.!?])\s+')`) -/

def isTermOpt : Option Char → Bool
  | some c => c == '.' || c == '!' || c == '?'
  | none => false

/-- `re.split(r'(?<=[.!?])\s+', s)`: accumulate the current piece until a
whitespace character preceded by `.`, `!` or `?` starts a separator run;
`inSep` records whether we are inside a (greedy, maximal) separator run. -/
def sentSplitAux : Bool → Str → Option Char → Str → List Str
  | false, cur, _, [] => [cur.reverse]
  | false, cur, prev, c :: rest =>
    if pyIsSpace c && isTermOpt prev then cur.reverse :: sentSplitAux true [] none rest
    else sentSplitAux false (c :: cur) (some c) rest
  | true, _, _, [] => [[]]
  | true, _, _, c :: rest =>
    if pyIsSpace c then sentSplitAux true [] none rest
    else sentSplitAux false [c] (some c) rest

def sentSplit (s : Str) : List Str := sentSplitAux false [] none s

def FIG_TOKEN : Str := "FIGSPECIALTOKEN".data
def FIGS_TOKEN : Str := "FIGSSPECIALTOKEN".data

/-- `split_sentences` (qwen_caption_batch.rawtext.py, lines 116-132):
protect `Fig.`/`Figs.`, split, filter empties, restore, strip. -/
def split_sentences (text : Str) : List Str :=
  let tmp := pyReplace ("Figs.".data) FIGS_TOKEN (pyReplace ("Fig.".data) FIG_TOKEN text)
  let sents := sentSplit tmp
  let sents := (sents.filter (fun s => !s.isEmpty && !(pyStrip s).isEmpty)).map pyStrip
  sents.map (fun s => pyStrip (pyReplace FIGS_TOKEN ("Figs.".data) (pyReplace FIG_TOKEN ("Fig.".data) s)))

/-! ### Caption records and the two detectors -/

structure CaptionRecord where
  type : Str
  id : Option Str
  start_sent_idx : Nat
  end_sent_idx : Nat
  caption_text : Str
  source : Str
  raw_window : List Str
  table_label : Option Str
  table_end_in_window : Option Int
  table_reason : Option Str
deriving DecidableEq

/-- `sentences[a : b+1]`. -/
def sentSlice (sents : List Str) (a b : Nat) : List Str :=
  (sents.drop a).take (b + 1 - a)

/-- Functional model of the per-document `used` array: marking a closed
index range. -/
def markRange (used : Nat → Bool) (a b : Nat) : Nat → Bool :=
  fun j => if a ≤ j ∧ j ≤ b then true else used j

/-- The FIGURE record emitted when `FIG_PATTERN` fires on sentence `i`
(lines 165-184). -/
def figRecordAt (sents : List Str) (i : Nat) : CaptionRecord :=
  let e := min (i + 2) (sents.length - 1)
  { type := "FIGURE".data
    id := extract_fig_no (sents.getD i [])
    start_sent_idx := i
    end_sent_idx := e
    caption_text := joinSpace (sentSlice sents i e)
    source := "RULE_FIG_PATTERN".data
    raw_window := sentSlice sents i e
    table_label := none
    table_end_in_window := none
    table_reason := none }

/-- `detect_figure_captions` main loop (lines 140-186); `fuel` bounds the
number of remaining iterations of the `for` loop. -/
def figLoop (sents : List Str) : Nat → Nat → (Nat → Bool) → List CaptionRecord
  | 0, _, _ => []
  | fuel + 1, i, used =>
    if i < sents.length then
      if used i then figLoop sents fuel (i + 1) used
      else if figSearch (sents.getD i []) then
        figRecordAt sents i ::
          figLoop sents fuel (i + 1) (markRange used i (min (i + 2) (sents.length - 1)))
      else figLoop sents fuel (i + 1) used
    else []

def detect_figure_captions (sents : List Str) : List CaptionRecord :=
  figLoop sents sents.length 0 (fun _ => false)

/-- The `(S0, S1, S2)` window offered to the oracle at candidate `i`
(lines 330-332). -/
def windowAt (sents : List Str) (i : Nat) : Str × Str × Str :=
  (sents.getD i [],
   if i + 1 < sents.length then sents.getD (i + 1) [] else [],
   if i + 2 < sents.length then sents.getD (i + 2) [] else [])

/-- The accepted TABLE record (lines 339-367). -/
def tableAccRecord (sents : List Str) (i e : Nat) (w : Str × Str × Str)
    (q : TableResult) : CaptionRecord :=
  { type := "TABLE".data
    id := table_id_search (joinSpace (sentSlice sents i e))
    start_sent_idx := i
    end_sent_idx := e
    caption_text := joinSpace (sentSlice sents i e)
    source := "LLM_TABLE".data
    raw_window := [w.1, w.2.1, w.2.2]
    table_label := some q.label
    table_end_in_window := some q.end_index
    table_reason := some q.reason }

/-- The rejected-candidate TABLE record (lines 371-384). -/
def tableRejRecord (i : Nat) (w : Str × Str × Str) (q : TableResult) :
    CaptionRecord :=
  { type := "TABLE".data
    id := none
    start_sent_idx := i
    end_sent_idx := i
    caption_text := w.1
    source := "LLM_TABLE".data
    raw_window := [w.1, w.2.1, w.2.2]
    table_label := some q.label
    table_end_in_window := some q.end_index
    table_reason := some q.reason }

/-- `detect_table_captions` main loop (lines 309-387). -/
def tableLoop (oracle : Oracle) (sents : List Str) :
    Nat → Nat → (Nat → Bool) → List CaptionRecord
  | 0, _, _ => []
  | fuel + 1, i, used =>
    if i < sents.length then
      if used i then tableLoop oracle sents fuel (i + 1) used
      else if tableSearch (sents.getD i []) then
        let w := windowAt sents i
        let q := call_qwen_table oracle w.1 w.2.1 w.2.2
        if q.label = "TABLE_CAPTION".data ∧ 0 ≤ q.end_index then
          let e := min (i + q.end_index.toNat) (sents.length - 1)
          tableAccRecord sents i e w q ::
            tableLoop oracle sents fuel (e + 1) (markRange used i e)
        else
          tableRejRecord i w q :: tableLoop oracle sents fuel (i + 1) used
      else tableLoop oracle sents fuel (i + 1) used
    else []

def detect_table_captions (oracle : Oracle) (sents : List Str) : List CaptionRecord :=
  tableLoop oracle sents sents.length 0 (fun _ => false)

/-- `fig_caps + tab_caps` as collected by `process_single_xml` (line 423). -/
def all_caption_records (oracle : Oracle) (sents : List Str) : List CaptionRecord :=
  detect_figure_captions sents ++ detect_table_captions oracle sents

/-! ### XML text extraction

An input document is abstracted by the three XPath node-set queries the
two extractors perform: `//*[local-name()='rawtext']//text()`,
`//*[local-name()='body']//text()` and `//text()`. -/

structure XmlDoc where
  rawtextNodes : List Str
  bodyNodes : List Str
  allTextNodes : List Str
deriving DecidableEq

/-- `extract_rawtext_from_xml` (qwen_caption_batch.rawtext.py, lines
89-108): only the rawtext region, no fallback. -/
def extract_rawtext_from_xml (doc : XmlDoc) : Option Str :=
  if doc.rawtextNodes.isEmpty then none
  else
    let text := joinSpace doc.rawtextNodes
    let text := pyReplace ['\r'] [' '] text
    let text := joinSpace (pySplit text)
    some (pyStrip text)

/-- `extract_text_from_xml` (extract_caption_rawtext.py, lines 93-127):
rawtext, then body, then the whole document, else `None`. -/
def extract_text_from_xml (doc : XmlDoc) : Option Str :=
  if !doc.rawtextNodes.isEmpty then
    some (joinSpace (pySplit (joinSpace doc.rawtextNodes)))
  else if !doc.bodyNodes.isEmpty then
    some (joinSpace (pySplit (joinSpace doc.bodyNodes)))
  else if !doc.allTextNodes.isEmpty then
    some (joinSpace (pySplit (joinSpace doc.allTextNodes)))
  else none

/-- Record-producing core of `process_single_xml`
(qwen_caption_batch.rawtext.py, lines 393-426, file tagging and disk
output elided). -/
def process_single_xml (oracle : Oracle) (doc : XmlDoc) : List CaptionRecord :=
  match extract_rawtext_from_xml doc with
  | none => []
  | some rawtext =>
    if rawtext.isEmpty then []
    else
      let sentences := split_sentences rawtext
      if sentences.isEmpty then []
      else all_caption_records oracle sentences

/-! ### Shared lemmas -/

/-- Two records' inclusive spans do not intersect. -/
def spansDisjoint (r1 r2 : CaptionRecord) : Prop :=
  r1.end_sent_idx < r2.start_sent_idx ∨ r2.end_sent_idx < r1.start_sent_idx

lemma parse_table_response_range (s : Str) :
    ((parse_table_response s).label = "TABLE_CAPTION".data ∨
     (parse_table_response s).label = "NOT_CAPTION".data ∨
     (parse_table_response s).label = "PARSE_ERROR".data) ∧
    ((parse_table_response s).end_index = -1 ∨ (parse_table_response s).end_index = 0 ∨
     (parse_table_response s).end_index = 1 ∨ (parse_table_response s).end_index = 2) := by
  cases h : searchLabel (collapseWs (afterFirstLabel s)) with
  | none => simp [parse_table_response, h]
  | some g =>
    obtain ⟨g1, g2, g3⟩ := g
    simp only [parse_table_response, h]
    constructor
    · split
      · rename_i h1
        rcases h1 with h1 | h1 <;> simp [h1]
      · simp
    · split
      · rename_i h2
        tauto
      · simp

lemma call_qwen_table_end_range (oracle : Oracle) (s0 s1 s2 : Str) :
    (call_qwen_table oracle s0 s1 s2).end_index = -1 ∨
    (call_qwen_table oracle s0 s1 s2).end_index = 0 ∨
    (call_qwen_table oracle s0 s1 s2).end_index = 1 ∨
    (call_qwen_table oracle s0 s1 s2).end_index = 2 := by
  unfold call_qwen_table
  cases oracle s0 s1 s2 with
  | error e => simp
  | ok r => exact (parse_table_response_range _).2

lemma markRange_eq_false {used : Nat → Bool} {a b j : Nat}
    (h : markRange used a b j = false) : used j = false ∧ ¬(a ≤ j ∧ j ≤ b) := by
  unfold markRange at h
  split at h
  · exact absurd h (by simp)
  · exact ⟨h, by assumption⟩

lemma figLoop_mem {sents : List Str} :
    ∀ {fuel i : Nat} {used : Nat → Bool} {r : CaptionRecord},
      r ∈ figLoop sents fuel i used →
      ∃ j, i ≤ j ∧ j < sents.length ∧ used j = false ∧
        figSearch (sents.getD j []) = true ∧ r = figRecordAt sents j := by
  intro fuel
  induction fuel with
  | zero => intro i used r h; simp [figLoop] at h
  | succ fuel ih =>
    intro i used r h
    rw [figLoop] at h
    split at h
    · rename_i hi
      split at h
      · obtain ⟨j, h1, h2, h3, h4, h5⟩ := ih h
        exact ⟨j, by omega, h2, h3, h4, h5⟩
      · rename_i hu
        split at h
        · rename_i hf
          rcases List.mem_cons.mp h with h | h
          · exact ⟨i, le_refl i, hi, by simpa using hu, hf, h⟩
          · obtain ⟨j, h1, h2, h3, h4, h5⟩ := ih h
            obtain ⟨h3a, _⟩ := markRange_eq_false h3
            exact ⟨j, by omega, h2, h3a, h4, h5⟩
        · obtain ⟨j, h1, h2, h3, h4, h5⟩ := ih h
          exact ⟨j, by omega, h2, h3, h4, h5⟩
    · simp at h

lemma figLoop_pairwise {sents : List Str} :
    ∀ {fuel i : Nat} {used : Nat → Bool},
      List.Pairwise spansDisjoint (figLoop sents fuel i used) := by
  intro fuel
  induction fuel with
  | zero => intro i used; simp [figLoop]
  | succ fuel ih =>
    intro i used
    rw [figLoop]
    split
    · rename_i hi
      split
      · exact ih
      · split
        · refine List.Pairwise.cons ?_ ih
          intro r' hr'
          obtain ⟨j, h1, h2, h3, _, h5⟩ := figLoop_mem hr'
          obtain ⟨_, h3b⟩ := markRange_eq_false h3
          left
          subst h5
          simp only [figRecordAt]
          omega
        · exact ih
    · simp

lemma tableLoop_mem {oracle : Oracle} {sents : List Str} :
    ∀ {fuel i : Nat} {used : Nat → Bool} {r : CaptionRecord},
      r ∈ tableLoop oracle sents fuel i used →
      ∃ j, i ≤ j ∧ j < sents.length ∧
        ((call_qwen_table oracle (windowAt sents j).1 (windowAt sents j).2.1
            (windowAt sents j).2.2).label = "TABLE_CAPTION".data ∧
         0 ≤ (call_qwen_table oracle (windowAt sents j).1 (windowAt sents j).2.1
            (windowAt sents j).2.2).end_index ∧
         r = tableAccRecord sents j
            (min (j + (call_qwen_table oracle (windowAt sents j).1
                (windowAt sents j).2.1 (windowAt sents j).2.2).end_index.toNat)
              (sents.length - 1))
            (windowAt sents j)
            (call_qwen_table oracle (windowAt sents j).1 (windowAt sents j).2.1
              (windowAt sents j).2.2) ∨
         r = tableRejRecord j (windowAt sents j)
            (call_qwen_table oracle (windowAt sents j).1 (windowAt sents j).2.1
              (windowAt sents j).2.2)) := by
  intro fuel
  induction fuel with
  | zero => intro i used r h; simp [tableLoop] at h
  | succ fuel ih =>
    intro i used r h
    rw [tableLoop] at h
    split at h
    · rename_i hi
      split at h
      · obtain ⟨j, h1, h2, h3⟩ := ih h
        exact ⟨j, by omega, h2, h3⟩
      · split at h
        · rename_i hk
          simp only at h
          split at h
          · rename_i hq
            rcases List.mem_cons.mp h with h | h
            · exact ⟨i, le_refl i, hi, Or.inl ⟨hq.1, hq.2, h⟩⟩
            · obtain ⟨j, h1, h2, h3⟩ := ih h
              exact ⟨j, by omega, h2, h3⟩
          · rcases List.mem_cons.mp h with h | h
            · exact ⟨i, le_refl i, hi, Or.inr h⟩
            · obtain ⟨j, h1, h2, h3⟩ := ih h
              exact ⟨j, by omega, h2, h3⟩
        · obtain ⟨j, h1, h2, h3⟩ := ih h
          exact ⟨j, by omega, h2, h3⟩
    · simp at h

lemma tableLoop_start_ge {oracle : Oracle} {sents : List Str}
    {fuel i : Nat} {used : Nat → Bool} {r : CaptionRecord}
    (h : r ∈ tableLoop oracle sents fuel i used) : i ≤ r.start_sent_idx := by
  obtain ⟨j, h1, _, h3⟩ := tableLoop_mem h
  rcases h3 with ⟨_, _, h3⟩ | h3 <;> subst h3 <;>
    simp only [tableAccRecord, tableRejRecord] <;> omega

lemma tableLoop_pairwise {oracle : Oracle} {sents : List Str} :
    ∀ {fuel i : Nat} {used : Nat → Bool},
      List.Pairwise spansDisjoint (tableLoop oracle sents fuel i used) := by
  intro fuel
  induction fuel with
  | zero => intro i used; simp [tableLoop]
  | succ fuel ih =>
    intro i used
    rw [tableLoop]
    split
    · rename_i hi
      split
      · exact ih
      · split
        · simp only
          split
          · rename_i hq
            refine List.Pairwise.cons ?_ ih
            intro r' hr'
            have := tableLoop_start_ge hr'
            left
            simp only [tableAccRecord]
            omega
          · refine List.Pairwise.cons ?_ ih
            intro r' hr'
            have := tableLoop_start_ge hr'
            left
            simp only [tableRejRecord]
            omega
        · exact ih
    · simp

/-! ### Declarative characterisation of `FIG_PATTERN` (for C5) -/

/-- The four characters `Fig.` up to case. -/
def ciFigDot (f : Str) : Prop :=
  ∃ c1 c2 c3, f = [c1, c2, c3, '.'] ∧ (c1 = 'f' ∨ c1 = 'F') ∧
    (c2 = 'i' ∨ c2 = 'I') ∧ (c3 = 'g' ∨ c3 = 'G')

/-- Word-boundary condition for the text before the match, relative to the
scanning context `prev`. -/
def lastOk (a : Str) (prev : Option Char) : Prop :=
  match a.getLast? with
  | none => prevOk prev = true
  | some c => isWordCharB c = false

/-- Declarative reading of `\bFig\.\s*\d+` (ignore-case) occurring
somewhere in `s`: the spec-side description of a figure-caption trigger,
with *optional* whitespace between `Fig.` and the digits. -/
def FigStartSpecAux (prev : Option Char) (s : Str) : Prop :=
  ∃ a f w d rest, s = a ++ f ++ w ++ d :: rest ∧ ciFigDot f ∧
    (∀ x ∈ w, pyIsSpace x = true) ∧ isDigitB d = true ∧ lastOk a prev

def FigStartSpec (s : Str) : Prop := FigStartSpecAux none s

lemma isDigitB_not_space {c : Char} (h : isDigitB c = true) : pyIsSpace c = false := by
  simp only [isDigitB, decide_eq_true_eq] at h
  simp only [pyIsSpace, Bool.or_eq_false_iff, decide_eq_false_iff_not]
  omega

lemma dropWhile_all_append {p : Char → Bool} {w : Str} (hw : ∀ x ∈ w, p x = true)
    {d : Char} (hd : p d = false) (r : Str) :
    (w ++ d :: r).dropWhile p = d :: r := by
  induction w with
  | nil => simp [List.dropWhile, hd]
  | cons c cs ih =>
    have hc : p c = true := hw c (by simp)
    simp only [List.cons_append, List.dropWhile, hc]
    exact ih (fun x hx => hw x (by simp [hx]))

lemma figHere_iff {l : Str} :
    figHere l = true ↔
      ∃ f w d rest, l = f ++ w ++ d :: rest ∧ ciFigDot f ∧
        (∀ x ∈ w, pyIsSpace x = true) ∧ isDigitB d = true := by
  constructor
  · intro h
    match l, h with
    | c1 :: c2 :: c3 :: c4 :: rest, h =>
      simp only [figHere, Bool.and_eq_true, Bool.or_eq_true, beq_iff_eq] at h
      obtain ⟨⟨⟨⟨h1, h2⟩, h3⟩, h4⟩, h5⟩ := h
      cases hd : rest.dropWhile pyIsSpace with
      | nil => rw [hd] at h5; exact absurd h5 (by simp)
      | cons d r2 =>
        rw [hd] at h5
        refine ⟨[c1, c2, c3, '.'], rest.takeWhile pyIsSpace, d, r2, ?_, ⟨c1, c2, c3, rfl, h1, h2, h3⟩, ?_, h5⟩
        · have hsplit : rest.takeWhile pyIsSpace ++ d :: r2 = rest := by
            have h := List.takeWhile_append_dropWhile pyIsSpace rest
            rw [hd] at h
            exact h
          rw [h4]
          simp only [List.cons_append, List.nil_append]
          rw [hsplit]
        · intro x hx
          exact List.mem_takeWhile_imp hx
  · rintro ⟨f, w, d, rest, heq, ⟨c1, c2, c3, hf, h1, h2, h3⟩, hw, hd⟩
    subst hf
    subst heq
    simp only [List.cons_append, List.nil_append, figHere]
    have : (w ++ d :: rest).dropWhile pyIsSpace = d :: rest :=
      dropWhile_all_append hw (isDigitB_not_space hd) rest
    rw [this]
    rcases h1 with h1 | h1 <;> rcases h2 with h2 | h2 <;> rcases h3 with h3 | h3 <;>
      simp [h1, h2, h3, hd]

lemma figFindSuffix_isSome_iff :
    ∀ (s : Str) (prev : Option Char),
      (figFindSuffix prev s).isSome = true ↔ FigStartSpecAux prev s := by
  intro s
  induction s with
  | nil =>
    intro prev
    simp only [figFindSuffix, Option.isSome_none, Bool.false_eq_true, false_iff]
    rintro ⟨a, f, w, d, rest, heq, ⟨c1, c2, c3, hf, -⟩, -⟩
    subst hf
    simp at heq
  | cons c rest ih =>
    intro prev
    rw [figFindSuffix]
    split
    · rename_i hpos
      simp only [Option.isSome_some, true_iff]
      rw [Bool.and_eq_true] at hpos
      obtain ⟨f, w, d, r2, heq, hf, hw, hd⟩ := figHere_iff.mp hpos.2
      refine ⟨[], f, w, d, r2, by simpa using heq, hf, hw, hd, ?_⟩
      simp only [lastOk, List.getLast?_nil]
      exact hpos.1
    · rename_i hneg
      rw [ih (some c)]
      constructor
      · rintro ⟨a, f, w, d, r2, heq, hf, hw, hd, hlast⟩
        refine ⟨c :: a, f, w, d, r2, by simp [heq], hf, hw, hd, ?_⟩
        cases a with
        | nil =>
          simp only [lastOk, List.getLast?_singleton]
          simp only [lastOk, List.getLast?_nil, prevOk, Bool.not_eq_true'] at hlast
          exact hlast
        | cons a0 a1 =>
          simpa only [lastOk, List.getLast?_cons_cons] using hlast
      · rintro ⟨a, f, w, d, r2, heq, hf, hw, hd, hlast⟩
        cases a with
        | nil =>
          exfalso
          simp only [List.nil_append] at heq
          have hfig : figHere (c :: rest) = true := by
            rw [heq]; exact figHere_iff.mpr ⟨f, w, d, r2, rfl, hf, hw, hd⟩
          simp only [lastOk, List.getLast?_nil] at hlast
          rw [hlast, hfig] at hneg
          exact hneg rfl
        | cons a0 a1 =>
          simp only [List.cons_append, List.cons.injEq] at heq
          obtain ⟨hca, heq⟩ := heq
          subst hca
          refine ⟨a1, f, w, d, r2, heq, hf, hw, hd, ?_⟩
          cases a1 with
          | nil =>
            simp only [lastOk, List.getLast?_singleton] at hlast
            simp only [lastOk, List.getLast?_nil, prevOk, Bool.not_eq_true']
            exact hlast
          | cons b0 b1 =>
            simpa only [lastOk, List.getLast?_cons_cons] using hlast

/-! ### First-occurrence property of `str.find` (for C3) -/

lemma dropToSubAux_first :
    ∀ (s : Str) (k : Nat),
      ("LABEL=".data).isPrefixOf (s.drop k) = true →
      (∀ j, j < k → ("LABEL=".data).isPrefixOf (s.drop j) = false) →
      dropToSubAux ("LABEL=".data) s = some (s.drop k) := by
  intro s
  induction s with
  | nil =>
    intro k h1 _
    rw [List.drop_nil] at h1
    exact absurd h1 (by decide)
  | cons c t ih =>
    intro k h1 h2
    cases k with
    | zero =>
      rw [List.drop_zero] at h1 ⊢
      simp only [dropToSubAux, h1, if_true]
    | succ k =>
      have h0 : ("LABEL=".data).isPrefixOf (c :: t) = false := by
        simpa using h2 0 (Nat.succ_pos k)
      have h1t : ("LABEL=".data).isPrefixOf (t.drop k) = true := by
        simpa using h1
      have h2t : ∀ j, j < k → ("LABEL=".data).isPrefixOf (t.drop j) = false := by
        intro j hj
        simpa using h2 (j + 1) (by omega)
      simp only [dropToSubAux, h0, Bool.false_eq_true, if_false, List.drop_succ_cons]
      exact ih k h1t h2t

lemma afterFirstLabel_first (s : Str) (k : Nat)
    (h1 : ("LABEL=".data).isPrefixOf (s.drop k) = true)
    (h2 : ∀ j, j < k → ("LABEL=".data).isPrefixOf (s.drop j) = false) :
    afterFirstLabel s = s.drop k := by
  unfold afterFirstLabel
  rw [dropToSubAux_first s k h1 h2]
  rfl

/-! ### Concrete inputs and oracles used by counterexamples and witnesses -/

def oracleNotCaption : Oracle :=
  fun _ _ _ => Except.ok ("LABEL=NOT_CAPTION; END_INDEX=-1; REASON=unrelated mention".data)

def oracleShortCaption : Oracle :=
  fun _ _ _ => Except.ok ("LABEL=TABLE_CAPTION; END_INDEX=0; REASON=short caption".data)

def cexSents : List Str := ["Fig. 1 shows Table 2.".data]

def tabSentsW : List Str := ["Table 1 lists the yields.".data]

/-! ### Claims -/

/-- Claim C1, counterexample.  The consumption state is NOT shared between
the two detectors: each builds its own fresh `used` array
(qwen_caption_batch.rawtext.py lines 147 and 314).  On the one-sentence
document "Fig. 1 shows Table 2." the Figure pass claims sentence 0 and
emits a record spanning [0,0]; the Table pass nevertheless also visits
sentence 0 and emits a record spanning [0,0]; the two spans intersect. -/
instance : DecidableRel spansDisjoint := fun r1 r2 => by
  unfold spansDisjoint
  infer_instance

theorem C1_counterexample :
    ((all_caption_records oracleNotCaption cexSents).map
        (fun r => (r.start_sent_idx, r.end_sent_idx))) = [(0, 0), (0, 0)] ∧
    ¬ List.Pairwise spansDisjoint (all_caption_records oracleNotCaption cexSents) := by
  constructor
  · decide
  · decide

/-- Claim C1, amended: each detector keeps its own per-document
consumption state, so the spans of any two FIGURE records are disjoint and
the spans of any two TABLE records are disjoint (a FIGURE and a TABLE
record may still intersect, as the counterexample shows). -/
theorem C1_amended_per_detector (sents : List Str) (oracle : Oracle) :
    List.Pairwise spansDisjoint (detect_figure_captions sents) ∧
    List.Pairwise spansDisjoint (detect_table_captions oracle sents) :=
  ⟨figLoop_pairwise, tableLoop_pairwise⟩

/-- Claim C2: one step of the Table Detector at an unclaimed candidate
index `i` (a sentence matching the whole-word Table keyword).  If the
oracle result has label TABLE_CAPTION and `end_in_window ∈ {0,1,2}`, one
record is emitted spanning `i .. min(i+end_in_window, last_index)`, that
span is marked claimed and scanning resumes at `end_index+1`; for any
other result a single-sentence record at `i` is emitted, the state is
unchanged and scanning advances to `i+1`; an oracle invocation that
throws yields the label=ERROR result and never aborts the loop. -/
theorem C2_table_step (oracle : Oracle) (sents : List Str) (fuel i : Nat)
    (used : Nat → Bool) (w : Str × Str × Str) (q : TableResult)
    (hi : i < sents.length) (hu : used i = false)
    (hk : tableSearch (sents.getD i []) = true)
    (hw : w = windowAt sents i)
    (hq : q = call_qwen_table oracle w.1 w.2.1 w.2.2) :
    (q.label = "TABLE_CAPTION".data ∧
        (q.end_index = 0 ∨ q.end_index = 1 ∨ q.end_index = 2) →
      tableLoop oracle sents (fuel + 1) i used =
        tableAccRecord sents i (min (i + q.end_index.toNat) (sents.length - 1)) w q ::
          tableLoop oracle sents fuel
            (min (i + q.end_index.toNat) (sents.length - 1) + 1)
            (markRange used i (min (i + q.end_index.toNat) (sents.length - 1)))) ∧
    (¬ (q.label = "TABLE_CAPTION".data ∧
        (q.end_index = 0 ∨ q.end_index = 1 ∨ q.end_index = 2)) →
      tableLoop oracle sents (fuel + 1) i used =
        tableRejRecord i w q :: tableLoop oracle sents fuel (i + 1) used) ∧
    (∀ m, oracle w.1 w.2.1 w.2.2 = Except.error m →
      q = { label := "ERROR".data, end_index := -1,
            reason := ("Qwen call error: ".data) ++ m }) := by
  subst hw
  subst hq
  have hrange := call_qwen_table_end_range oracle (windowAt sents i).1
    (windowAt sents i).2.1 (windowAt sents i).2.2
  refine ⟨?_, ?_, ?_⟩
  · intro hcond
    rw [tableLoop, if_pos hi, if_neg (by simp [hu]), if_pos hk]
    simp only
    rw [if_pos ⟨hcond.1, by rcases hcond.2 with h | h | h <;> omega⟩]
  · intro hcond
    rw [tableLoop, if_pos hi, if_neg (by simp [hu]), if_pos hk]
    simp only
    rw [if_neg ?_]
    intro hc
    exact hcond ⟨hc.1, by rcases hrange with h | h | h | h <;> omega⟩
  · intro m hm
    unfold call_qwen_table
    rw [hm]

/-- Claim C2, witness: on the one-sentence document "Table 1 lists the
yields." with an oracle answering TABLE_CAPTION / END_INDEX=0, the step
theorem applies and yields the accepted record followed by the resumed
loop. -/
theorem C2_witness :
    tableLoop oracleShortCaption tabSentsW 1 0 (fun _ => false) =
      tableAccRecord tabSentsW 0
          (min (0 + (call_qwen_table oracleShortCaption (windowAt tabSentsW 0).1
            (windowAt tabSentsW 0).2.1 (windowAt tabSentsW 0).2.2).end_index.toNat)
            (tabSentsW.length - 1))
          (windowAt tabSentsW 0)
          (call_qwen_table oracleShortCaption (windowAt tabSentsW 0).1
            (windowAt tabSentsW 0).2.1 (windowAt tabSentsW 0).2.2) ::
        tableLoop oracleShortCaption tabSentsW 0
          (min (0 + (call_qwen_table oracleShortCaption (windowAt tabSentsW 0).1
            (windowAt tabSentsW 0).2.1 (windowAt tabSentsW 0).2.2).end_index.toNat)
            (tabSentsW.length - 1) + 1)
          (markRange (fun _ => false) 0
            (min (0 + (call_qwen_table oracleShortCaption (windowAt tabSentsW 0).1
              (windowAt tabSentsW 0).2.1 (windowAt tabSentsW 0).2.2).end_index.toNat)
              (tabSentsW.length - 1))) :=
  (C2_table_step oracleShortCaption tabSentsW 0 0 (fun _ => false)
      (windowAt tabSentsW 0)
      (call_qwen_table oracleShortCaption (windowAt tabSentsW 0).1
        (windowAt tabSentsW 0).2.1 (windowAt tabSentsW 0).2.2)
      (by decide) rfl (by decide) rfl rfl).1 (by decide)

/-- Claim C3: the oracle-response parser is a total function; the suffix
it parses starts at the first occurrence of the literal `LABEL=`; and
whenever the fixed pattern does not match the whitespace-collapsed
suffix, the result is label=PARSE_ERROR, end_index=-1, with the reason
the `raw: `-prefixed 200-character truncation of that collapsed text. -/
theorem C3_parse_robust (s : Str) :
    (∀ k, ("LABEL=".data).isPrefixOf (s.drop k) = true →
      (∀ j, j < k → ("LABEL=".data).isPrefixOf (s.drop j) = false) →
      afterFirstLabel s = s.drop k) ∧
    (searchLabel (collapseWs (afterFirstLabel s)) = none →
      parse_table_response s =
        { label := "PARSE_ERROR".data, end_index := -1,
          reason := ("raw: ".data) ++ (collapseWs (afterFirstLabel s)).take 200 }) := by
  refine ⟨fun k => afterFirstLabel_first s k, fun h => ?_⟩
  simp only [parse_table_response, h]

/-- Claim C3, witness: on the input "xx LABEL=junk" the parsed suffix
starts at index 3 (the first `LABEL=`), the pattern does not match, and
the parser returns the PARSE_ERROR result without raising. -/
theorem C3_witness :
    afterFirstLabel ("xx LABEL=junk".data) = ("xx LABEL=junk".data).drop 3 ∧
    parse_table_response ("xx LABEL=junk".data) =
      { label := "PARSE_ERROR".data, end_index := -1,
        reason := ("raw: ".data) ++
          (collapseWs (afterFirstLabel ("xx LABEL=junk".data))).take 200 } :=
  ⟨(C3_parse_robust ("xx LABEL=junk".data)).1 3 (by decide) (by decide),
   (C3_parse_robust ("xx LABEL=junk".data)).2 (by decide)⟩

def c4input : Str := "LABEL=WEIRD; END_INDEX=1; REASON=x".data

/-- Claim C4, counterexample.  On "LABEL=WEIRD; END_INDEX=1; REASON=x"
the pattern matches with an unrecognised label, but the parser keeps the
parsed end_index (1, not -1) and the parsed reason ("x", not the
truncated raw text): only the label is replaced by PARSE_ERROR
(qwen_caption_batch.rawtext.py lines 266-276). -/
theorem C4_counterexample :
    searchLabel (collapseWs (afterFirstLabel c4input)) =
      some ("WEIRD".data, "1".data, "x".data) ∧
    ¬ ("WEIRD".data = "TABLE_CAPTION".data ∨ "WEIRD".data = "NOT_CAPTION".data) ∧
    parse_table_response c4input =
      { label := "PARSE_ERROR".data, end_index := 1, reason := "x".data } ∧
    (parse_table_response c4input).end_index ≠ -1 ∧
    (parse_table_response c4input).reason ≠
      ("raw: ".data) ++ (collapseWs (afterFirstLabel c4input)).take 200 := by
  decide

/-- Claim C4, amended: when the pattern matches, the label is replaced by
PARSE_ERROR exactly when the upper-cased captured label is neither
TABLE_CAPTION nor NOT_CAPTION, the end_index is coerced to -1 exactly
when the captured integer is outside {-1,0,1,2}, and the reason is always
the stripped captured reason — the two sanity checks act independently
and never substitute the truncated raw text. -/
theorem C4_amended (s g1 g2 g3 : Str)
    (h : searchLabel (collapseWs (afterFirstLabel s)) = some (g1, g2, g3)) :
    parse_table_response s =
      { label :=
          if g1.map pyUpperChar = "TABLE_CAPTION".data ∨
             g1.map pyUpperChar = "NOT_CAPTION".data
          then g1.map pyUpperChar else "PARSE_ERROR".data,
        end_index :=
          if strToInt g2 = -1 ∨ strToInt g2 = 0 ∨ strToInt g2 = 1 ∨ strToInt g2 = 2
          then strToInt g2 else -1,
        reason := pyStrip g3 } := by
  simp only [parse_table_response, h]

/-- Claim C4, witness: the amended characterisation applied to the
concrete response "LABEL=NOT_CAPTIONX; END_INDEX=0; REASON=y". -/
theorem C4_witness :
    parse_table_response ("LABEL=NOT_CAPTIONX; END_INDEX=0; REASON=y".data) =
      { label :=
          if ("NOT_CAPTIONX".data).map pyUpperChar = "TABLE_CAPTION".data ∨
             ("NOT_CAPTIONX".data).map pyUpperChar = "NOT_CAPTION".data
          then ("NOT_CAPTIONX".data).map pyUpperChar else "PARSE_ERROR".data,
        end_index :=
          if strToInt ("0".data) = -1 ∨ strToInt ("0".data) = 0 ∨
             strToInt ("0".data) = 1 ∨ strToInt ("0".data) = 2
          then strToInt ("0".data) else -1,
        reason := pyStrip ("y".data) } :=
  C4_amended ("LABEL=NOT_CAPTIONX; END_INDEX=0; REASON=y".data)
    ("NOT_CAPTIONX".data) ("0".data) ("y".data) (by decide)

/-- Claim C5, counterexample.  `FIG_PATTERN` is `\bFig\.\s*\d+` with
`\s*` (zero or more), so the sentence "Fig.3" — no whitespace between
`Fig.` and the digit — IS treated as a figure-caption start, contrary to
the claim. -/
theorem C5_counterexample :
    figSearch ("Fig.3".data) = true ∧
    (detect_figure_captions (["Fig.3".data])).length = 1 := by
  decide

/-- Claim C5, amended: a sentence is treated as a figure-caption start if
and only if it contains, at a word boundary, "Fig." (case-insensitive)
followed by OPTIONAL whitespace and a digit. -/
theorem C5_amended (s : Str) :
    (figSearch s = true ↔ FigStartSpec s) ∧
    (detect_figure_captions [s] ≠ [] ↔ figSearch s = true) := by
  constructor
  · exact figFindSuffix_isSome_iff s none
  · cases hb : figSearch s with
    | false =>
      simp only [detect_figure_captions, List.length_singleton]
      rw [show (1 : Nat) = 0 + 1 from rfl, figLoop]
      simp [figLoop, hb]
    | true =>
      simp only [detect_figure_captions, List.length_singleton]
      rw [show (1 : Nat) = 0 + 1 from rfl, figLoop]
      simp [figLoop, hb]

/-- Claim C6, counterexample.  A FIGURE record does not have an empty
`raw_window`: the detector stores the spanned sentences there
(qwen_caption_batch.rawtext.py line 180). -/
theorem C6_counterexample :
    (detect_figure_captions (["Fig. 1 shows.".data])).map CaptionRecord.raw_window =
      [["Fig. 1 shows.".data]] ∧
    (["Fig. 1 shows.".data] : List Str) ≠ [] := by
  decide

/-- Claim C6, amended: every FIGURE record carries the spanned sentences
`sentences[start..end]` as its `raw_window`, while every TABLE record
carries the `(S0, S1, S2)` window offered to the oracle. -/
theorem C6_amended (sents : List Str) (oracle : Oracle) (r : CaptionRecord) :
    (r ∈ detect_figure_captions sents →
      r.raw_window = sentSlice sents r.start_sent_idx r.end_sent_idx) ∧
    (r ∈ detect_table_captions oracle sents →
      r.raw_window = [(windowAt sents r.start_sent_idx).1,
        (windowAt sents r.start_sent_idx).2.1,
        (windowAt sents r.start_sent_idx).2.2]) := by
  constructor
  · intro h
    obtain ⟨j, _, _, _, _, h5⟩ := figLoop_mem h
    subst h5
    simp only [figRecordAt]
  · intro h
    obtain ⟨j, _, _, h3⟩ := tableLoop_mem h
    rcases h3 with ⟨_, _, h3⟩ | h3 <;> subst h3 <;>
      simp only [tableAccRecord, tableRejRecord]

/-- Claim C6, witness: the amended statement applied to the concrete
FIGURE and TABLE records of the document "Fig. 1 shows Table 2.". -/
theorem C6_witness :
    (figRecordAt cexSents 0).raw_window =
      sentSlice cexSents (figRecordAt cexSents 0).start_sent_idx
        (figRecordAt cexSents 0).end_sent_idx ∧
    (tableRejRecord 0 (windowAt cexSents 0)
        (call_qwen_table oracleNotCaption (windowAt cexSents 0).1
          (windowAt cexSents 0).2.1 (windowAt cexSents 0).2.2)).raw_window =
      [(windowAt cexSents 0).1, (windowAt cexSents 0).2.1, (windowAt cexSents 0).2.2] :=
  ⟨(C6_amended cexSents oracleNotCaption (figRecordAt cexSents 0)).1 (by decide),
   (C6_amended cexSents oracleNotCaption (tableRejRecord 0 (windowAt cexSents 0)
      (call_qwen_table oracleNotCaption (windowAt cexSents 0).1
        (windowAt cexSents 0).2.1 (windowAt cexSents 0).2.2))).2 (by decide)⟩

def c7docBodyOnly : XmlDoc :=
  { rawtextNodes := [], bodyNodes := ["Table 1 lists the yields.".data],
    allTextNodes := ["Table 1 lists the yields.".data] }

def c7docRawtext : XmlDoc :=
  { rawtextNodes := ["Table 1 lists the yields.".data], bodyNodes := [],
    allTextNodes := [] }

/-- Claim C7, counterexample.  The caption pipeline's extractor
(`extract_rawtext_from_xml`) reads ONLY the rawtext region: on a document
whose rawtext region is absent but whose body holds text, it returns no
text and the pipeline emits zero records, although the claimed
rawtext→body→full-document chain (present only in the standalone tool's
`extract_text_from_xml`) would have produced that text — as shown by the
same text placed in the rawtext region yielding a record. -/
theorem C7_counterexample :
    extract_rawtext_from_xml c7docBodyOnly = none ∧
    extract_text_from_xml c7docBodyOnly = some ("Table 1 lists the yields.".data) ∧
    process_single_xml oracleShortCaption c7docBodyOnly = [] ∧
    process_single_xml oracleShortCaption c7docRawtext ≠ [] := by
  decide

/-- Claim C7, amended: the standalone tool's extractor tries the rawtext
region, then the body region, then the full-document text, returning the
collapsed join of the first region whose node set is non-empty (and
`none` if all are empty); the caption pipeline's extractor instead uses
only the rawtext region, and an absent region or an empty extracted
string makes the pipeline emit zero records without raising. -/
theorem C7_amended (doc : XmlDoc) (oracle : Oracle) :
    (doc.rawtextNodes ≠ [] →
      extract_text_from_xml doc =
        some (joinSpace (pySplit (joinSpace doc.rawtextNodes)))) ∧
    (doc.rawtextNodes = [] → doc.bodyNodes ≠ [] →
      extract_text_from_xml doc =
        some (joinSpace (pySplit (joinSpace doc.bodyNodes)))) ∧
    (doc.rawtextNodes = [] → doc.bodyNodes = [] → doc.allTextNodes ≠ [] →
      extract_text_from_xml doc =
        some (joinSpace (pySplit (joinSpace doc.allTextNodes)))) ∧
    (doc.rawtextNodes = [] → doc.bodyNodes = [] → doc.allTextNodes = [] →
      extract_text_from_xml doc = none) ∧
    (doc.rawtextNodes = [] → process_single_xml oracle doc = []) ∧
    (extract_rawtext_from_xml doc = some [] → process_single_xml oracle doc = []) := by
  refine ⟨?_, ?_, ?_, ?_, ?_, ?_⟩
  · intro h1
    simp [extract_text_from_xml, h1]
  · intro h1 h2
    simp [extract_text_from_xml, h1, h2]
  · intro h1 h2 h3
    simp [extract_text_from_xml, h1, h2, h3]
  · intro h1 h2 h3
    simp [extract_text_from_xml, h1, h2, h3]
  · intro h1
    simp [process_single_xml, extract_rawtext_from_xml, h1]
  · intro h
    simp [process_single_xml, h]

/-- Claim C7, witness: the amended statement applied to the concrete
body-only document. -/
theorem C7_witness :
    extract_text_from_xml c7docBodyOnly =
      some (joinSpace (pySplit (joinSpace c7docBodyOnly.bodyNodes))) ∧
    process_single_xml oracleNotCaption c7docBodyOnly = [] :=
  ⟨(C7_amended c7docBodyOnly oracleNotCaption).2.1 rfl (by decide),
   (C7_amended c7docBodyOnly oracleNotCaption).2.2.2.2.1 rfl⟩

/-- Claim C8: every record emitted by either detector — including
rejected Table candidates — satisfies
`0 ≤ start_index ≤ end_index ≤ last_sentence_index`. -/
theorem C8_span_validity (sents : List Str) (oracle : Oracle) (r : CaptionRecord)
    (h : r ∈ all_caption_records oracle sents) :
    0 ≤ r.start_sent_idx ∧ r.start_sent_idx ≤ r.end_sent_idx ∧
    r.end_sent_idx ≤ sents.length - 1 := by
  rcases List.mem_append.mp h with h | h
  · obtain ⟨j, _, hj, _, _, h5⟩ := figLoop_mem h
    subst h5
    simp only [figRecordAt]
    omega
  · obtain ⟨j, _, hj, h3⟩ := tableLoop_mem h
    rcases h3 with ⟨_, _, h3⟩ | h3 <;> subst h3 <;>
      simp only [tableAccRecord, tableRejRecord] <;> omega

/-- Claim C8, witness: the span-validity bounds at the concrete FIGURE
record of the document "Fig. 1 shows Table 2.". -/
theorem C8_witness :
    0 ≤ (figRecordAt cexSents 0).start_sent_idx ∧
    (figRecordAt cexSents 0).start_sent_idx ≤ (figRecordAt cexSents 0).end_sent_idx ∧
    (figRecordAt cexSents 0).end_sent_idx ≤ cexSents.length - 1 :=
  C8_span_validity cexSents oracleNotCaption (figRecordAt cexSents 0) (by decide)

/-- Claim C9, Scenario A: the text "See Fig. 3. It shows the TGA curve.
Conditions were 600°C." splits into exactly three sentences and the
Figure Detector emits exactly one record — type FIGURE, id "3",
start_index 0, end_index 2 = min(start+2, last_index), caption_text the
space-join of all three sentences. -/
theorem C9_scenarioA :
    split_sentences ("See Fig. 3. It shows the TGA curve. Conditions were 600°C.".data) =
      ["See Fig. 3.".data, "It shows the TGA curve.".data,
       "Conditions were 600°C.".data] ∧
    detect_figure_captions
        (split_sentences
          ("See Fig. 3. It shows the TGA curve. Conditions were 600°C.".data)) =
      [{ type := "FIGURE".data
         id := some ("3".data)
         start_sent_idx := 0
         end_sent_idx := 2
         caption_text :=
           "See Fig. 3. It shows the TGA curve. Conditions were 600°C.".data
         source := "RULE_FIG_PATTERN".data
         raw_window := ["See Fig. 3.".data, "It shows the TGA curve.".data,
           "Conditions were 600°C.".data]
         table_label := none
         table_end_in_window := none
         table_reason := none }] := by
  decide

/-- Claim C10: for every input string the parser's result is normalised —
label among TABLE_CAPTION, NOT_CAPTION, PARSE_ERROR and end_index in
{-1,0,1,2} — and consequently every record of the Table Detector spans at
most two sentences past its candidate index. -/
theorem C10_normalized :
    (∀ s : Str,
      ((parse_table_response s).label = "TABLE_CAPTION".data ∨
       (parse_table_response s).label = "NOT_CAPTION".data ∨
       (parse_table_response s).label = "PARSE_ERROR".data) ∧
      ((parse_table_response s).end_index = -1 ∨
       (parse_table_response s).end_index = 0 ∨
       (parse_table_response s).end_index = 1 ∨
       (parse_table_response s).end_index = 2)) ∧
    (∀ (oracle : Oracle) (sents : List Str) (r : CaptionRecord),
      r ∈ detect_table_captions oracle sents →
      r.end_sent_idx ≤ r.start_sent_idx + 2) := by
  refine ⟨parse_table_response_range, ?_⟩
  intro oracle sents r h
  obtain ⟨j, _, _, h3⟩ := tableLoop_mem h
  have hrange := call_qwen_table_end_range oracle (windowAt sents j).1
    (windowAt sents j).2.1 (windowAt sents j).2.2
  rcases h3 with ⟨_, _, h3⟩ | h3 <;> subst h3
  · have htn : (call_qwen_table oracle (windowAt sents j).1 (windowAt sents j).2.1
        (windowAt sents j).2.2).end_index.toNat ≤ 2 := by
      rcases hrange with h | h | h | h <;> simp [h]
    simp only [tableAccRecord]
    omega
  · simp only [tableRejRecord]
    omega

/-- Claim C10, witness: the normalisation at the out-of-range response
"LABEL=TABLE_CAPTION; END_INDEX=9; REASON=far" and the span bound at the
concrete rejected record of "Fig. 1 shows Table 2.". -/
theorem C10_witness :
    (((parse_table_response ("LABEL=TABLE_CAPTION; END_INDEX=9; REASON=far".data)).label =
        "TABLE_CAPTION".data ∨
      (parse_table_response ("LABEL=TABLE_CAPTION; END_INDEX=9; REASON=far".data)).label =
        "NOT_CAPTION".data ∨
      (parse_table_response ("LABEL=TABLE_CAPTION; END_INDEX=9; REASON=far".data)).label =
        "PARSE_ERROR".data) ∧
     ((parse_table_response ("LABEL=TABLE_CAPTION; END_INDEX=9; REASON=far".data)).end_index = -1 ∨
      (parse_table_response ("LABEL=TABLE_CAPTION; END_INDEX=9; REASON=far".data)).end_index = 0 ∨
      (parse_table_response ("LABEL=TABLE_CAPTION; END_INDEX=9; REASON=far".data)).end_index = 1 ∨
      (parse_table_response ("LABEL=TABLE_CAPTION; END_INDEX=9; REASON=far".data)).end_index = 2)) ∧
    (tableRejRecord 0 (windowAt cexSents 0)
        (call_qwen_table oracleNotCaption (windowAt cexSents 0).1
          (windowAt cexSents 0).2.1 (windowAt cexSents 0).2.2)).end_sent_idx ≤
      (tableRejRecord 0 (windowAt cexSents 0)
        (call_qwen_table oracleNotCaption (windowAt cexSents 0).1
          (windowAt cexSents 0).2.1 (windowAt cexSents 0).2.2)).start_sent_idx + 2 :=
  ⟨C10_normalized.1 ("LABEL=TABLE_CAPTION; END_INDEX=9; REASON=far".data),
   C10_normalized.2 oracleNotCaption cexSents
     (tableRejRecord 0 (windowAt cexSents 0)
       (call_qwen_table oracleNotCaption (windowAt cexSents 0).1
         (windowAt cexSents 0).2.1 (windowAt cexSents 0).2.2)) (by decide)⟩
